import Mathlib

/-!
# Verification of `warehouse_ros` connection bootstrap (`src/mongo_ros.cpp`)

Shallow embedding of the connection-bootstrap glue in `mongo_ros.cpp`:

* the parameter resolvers `getHost`, `getPort`, `getName`, `getUser`,
  `getAuthenticate`, `getPwd` (each: explicit argument unless it equals its
  unset sentinel, else a ROS parameter lookup with a hard default);
* the retry loop `makeDbConnection` (deadline `now + timeout`, fresh
  connection per attempt, `ConnectException` caught with a 1-unit sleep,
  optional authentication whose failure is only logged, post-loop
  `isFailed() || now > end` check throwing `DbConnectException`);
* `dropDatabase` (1- and 4-argument forms) and `messageType`.

Time is modelled in whole wall-clock units as `Int` (the C++ uses
`ros::WallTime`; all claims use integral durations).  The network and the
mongo driver are modelled by an environment `Env` that says, for an attempt
started at a given instant, whether `connect` throws `ConnectException`, how
long the attempt takes, whether `auth` succeeds and whether the resulting
connection object reports `isFailed()`.  Following the legacy mongo driver,
a connection object whose `connect` threw `ConnectException` reports
`isFailed() = true` (the driver sets its failed flag before throwing).
The loop is written with explicit fuel; every claim is stated with enough
fuel for the run it talks about.
-/

namespace MongoRos

/-- ROS parameter store (`ros::NodeHandle`): for each value type, a partial
map from parameter names to configured values. -/
structure NodeHandle where
  strParams : String → Option String
  intParams : String → Option Int
  boolParams : String → Option Bool

/-- C++ `getParam<string>(nh, name, default_val)`: configured value if
present, else the default. -/
def getParamStr (nh : NodeHandle) (name : String) (default_val : String) : String :=
  (nh.strParams name).getD default_val

/-- C++ `getParam<int>(nh, name, default_val)`. -/
def getParamInt (nh : NodeHandle) (name : String) (default_val : Int) : Int :=
  (nh.intParams name).getD default_val

/-- C++ `getParam<bool>(nh, name, default_val)`. -/
def getParamBool (nh : NodeHandle) (name : String) (default_val : Bool) : Bool :=
  (nh.boolParams name).getD default_val

/-- A node handle with no configured parameters. -/
def emptyNh : NodeHandle :=
  { strParams := fun _ => none, intParams := fun _ => none, boolParams := fun _ => none }

/-- C++ `getHost` (mongo_ros.cpp:59): explicit `host` unless empty, else the
`warehouse_host` parameter with hard default `"localhost"`. -/
def getHost (nh : NodeHandle) (host : String) : String :=
  if host = "" then getParamStr nh "warehouse_host" "localhost" else host

/-- C++ `getPort` (mongo_ros.cpp:68): explicit `port` unless `0`, else the
`warehouse_port` parameter with hard default `27017`. -/
def getPort (nh : NodeHandle) (port : Int) : Int :=
  if port = 0 then getParamInt nh "warehouse_port" 27017 else port

/-- C++ `getName` (mongo_ros.cpp:77): explicit `name` unless empty, else the
`warehouse_database_name` parameter with hard default `""`. -/
def getName (nh : NodeHandle) (name : String) : String :=
  if name = "" then getParamStr nh "warehouse_database_name" "" else name

/-- C++ `getUser` (mongo_ros.cpp:86): explicit `user` unless empty, else the
`warehouse_user` parameter with hard default `""`. -/
def getUser (nh : NodeHandle) (user : String) : String :=
  if user = "" then getParamStr nh "warehouse_user" "" else user

/-- C++ `getAuthenticate` (mongo_ros.cpp:95): explicit `authenticate` unless
`false`, else the `warehouse_authenticate` parameter.  The C++ passes the
string literal `""` as the `bool` hard default: `P` is instantiated to
`bool`, so the `const char[1]` decays to a non-null `const char*`, whose
standard conversion to `bool` is `true`.  The hard default is therefore
`true`, not `false`. -/
def getAuthenticate (nh : NodeHandle) (authenticate : Bool) : Bool :=
  if authenticate = false then getParamBool nh "warehouse_authenticate" true
  else authenticate

/-- C++ `getPwd` (mongo_ros.cpp:104): explicit `pwd` unless empty, else the
`warehouse_pwd` parameter with hard default `""`. -/
def getPwd (nh : NodeHandle) (pwd : String) : String :=
  if pwd = "" then getParamStr nh "warehouse_pwd" "" else pwd

/-- Log events of the retry loop that the claims talk about:
`authFailed` for `ROS_ERROR_STREAM("Mongo authentication failed " ...)`
(mongo_ros.cpp:159) and `connected` for `ROS_INFO("connected")`
(mongo_ros.cpp:164).  The purely informational setting dumps are not
tracked. -/
inductive LogEvent where
  | authFailed
  | connected
deriving DecidableEq, Repr

/-- Outcome of one connection attempt, as determined by the network and the
driver:
* `throwEx dur`: `conn->connect(db_address)` throws `mongo::ConnectException`
  after `dur` time units (the connection object then reports
  `isFailed() = true`, as the legacy driver sets its failed flag before
  throwing);
* `conn dur authOk failed`: `connect` returns after `dur` time units,
  `conn->auth(...)` (if performed) returns `authOk`, and `conn->isFailed()`
  afterwards returns `failed`. -/
inductive AttemptOutcome where
  | throwEx (dur : Nat)
  | conn (dur : Nat) (authOk : Bool) (failed : Bool)
deriving DecidableEq, Repr

/-- Environment of a run of `makeDbConnection`: `outcome t` is the outcome
of a connection attempt started at instant `t`, and `ok t` is the value of
the process-wide `ros::ok()` flag at instant `t`. -/
structure Env where
  outcome : Int → AttemptOutcome
  ok : Int → Bool

/-- The retry loop of `makeDbConnection` (mongo_ros.cpp:146-172), with
explicit fuel.  State: current time `t`, current connection object `conn`
(`none` before the first `conn.reset`, else `some failed` recording its
`isFailed()` state) and the log so far.  Returns `none` when the fuel runs
out, else the state at loop exit.

Per iteration: while `ros::ok() && now < end`, reset `conn` to a fresh
connection and attempt `connect`.  On `ConnectException` the handler sleeps
`1.0` (total time advance `dur + 1`) and the loop retries.  Otherwise, if
`doAuth`, a failed `auth` call logs `authFailed` and nothing more; then if
`isFailed()` is false the loop logs `connected` and breaks, else it
retries. -/
def connectLoop (env : Env) (doAuth : Bool) (endT : Int) :
    Nat → Int → Option Bool → List LogEvent →
    Option (Int × Option Bool × List LogEvent)
  | 0, _, _, _ => none
  | fuel + 1, t, conn, log =>
    if env.ok t && decide (t < endT) then
      match env.outcome t with
      | .throwEx dur =>
          connectLoop env doAuth endT fuel (t + dur + 1) (some true) log
      | .conn dur authOk failed =>
          let log' := log ++ (if doAuth && !authOk then [.authFailed] else [])
          if failed then
            connectLoop env doAuth endT fuel (t + dur) (some true) log'
          else
            some (t + dur, some false, log' ++ [.connected])
    else
      some (t, conn, log)

/-- Result of `makeDbConnection`:
* `timeoutError`: the function throws `DbConnectException`
  (mongo_ros.cpp:174);
* `handle failed`: the function returns the shared pointer, whose
  `isFailed()` state is `failed`;
* `nullPointerUB`: the post-loop `conn->isFailed()` dereferences a null
  pointer (the loop body never ran, so `conn` was never reset) — undefined
  behavior. -/
inductive ConnectResult where
  | timeoutError
  | handle (failed : Bool)
  | nullPointerUB
deriving DecidableEq, Repr

/-- C++ `makeDbConnection` (mongo_ros.cpp:113-178).  Resolves the settings,
computes the deadline `end = now + timeout`, runs the retry loop, then
performs the post-loop check `conn->isFailed() || now > end`: throw
`DbConnectException` when it holds, otherwise return the handle.  `start` is
the wall-clock time at entry; `fuel` bounds the number of loop iterations
(`none` when it is insufficient).  The resolved host, port, name, user and
password only feed the address string and the `auth` call, whose behavior
the environment abstracts; `db_authenticate` decides whether `auth` is
attempted at all. -/
def makeDbConnection (env : Env) (nh : NodeHandle) (host : String) (port : Int)
    (timeout : Int) (name : String) (authenticate : Bool)
    (user : String) (pwd : String) (start : Int) (fuel : Nat) :
    Option (ConnectResult × List LogEvent) :=
  let db_authenticate := getAuthenticate nh authenticate
  let _db_host := getHost nh host
  let _db_port := getPort nh port
  let _db_name := getName nh name
  let _db_user := getUser nh user
  let _db_pwd := getPwd nh pwd
  match connectLoop env db_authenticate (start + timeout) fuel start none [] with
  | none => none
  | some (_, none, log) => some (.nullPointerUB, log)
  | some (t, some failed, log) =>
      if failed || decide (t > start + timeout) then some (.timeoutError, log)
      else some (.handle failed, log)

/-- Observable outcome of `dropDatabase`: `ok cmds` records the
drop-database commands issued (in order) on normal return; the error
constructors record how a run of the underlying `makeDbConnection` ended
before any command was issued. -/
inductive DropOutcome where
  | ok (cmds : List String)
  | timeoutError
  | nullPointerUB
deriving DecidableEq, Repr

/-- C++ 4-argument `dropDatabase` (mongo_ros.cpp:185-192): obtain a
connection through `makeDbConnection (nh, host, port, timeout)` and issue
one `c->dropDatabase(db)` command.  The omitted trailing arguments of
`makeDbConnection` take the header's default values, which are the unset
sentinels (`name = ""`, `authenticate = false`, `user = ""`, `pwd = ""`);
the claims about `dropDatabase` do not depend on them.  A
`DbConnectException` from `makeDbConnection` propagates unchanged. -/
def dropDatabase4 (env : Env) (nh : NodeHandle) (db : String) (host : String)
    (port : Int) (timeout : Int) (start : Int) (fuel : Nat) :
    Option DropOutcome :=
  match makeDbConnection env nh host port timeout "" false "" "" start fuel with
  | none => none
  | some (.timeoutError, _) => some .timeoutError
  | some (.nullPointerUB, _) => some .nullPointerUB
  | some (.handle _, _) => some (.ok [db])

/-- C++ 1-argument `dropDatabase` (mongo_ros.cpp:180-183): delegates to the
4-argument form with `host = ""`, `port = 0`, `timeout = 60.0`. -/
def dropDatabase1 (env : Env) (nh : NodeHandle) (db : String)
    (start : Int) (fuel : Nat) : Option DropOutcome :=
  dropDatabase4 env nh db "" 0 60 start fuel

/-- A BSON document, restricted to string-valued fields (the only ones
`messageType` reads). -/
structure BSONDoc where
  fields : List (String × String)
deriving DecidableEq, Repr

/-- C++ `mongo::BSONObj::getStringField`: the value of the field, or the
empty string when the document has no such field. -/
def BSONDoc.getStringField (d : BSONDoc) (f : String) : String :=
  (d.fields.lookup f).getD ""

/-- Contents of the mongo server as seen through `conn.query`: the list of
stored documents of each namespace, in the order the cursor yields them. -/
structure MongoStore where
  docs : String → List BSONDoc

/-- Driver semantics of `conn.query(ns, BSON("name" << coll))`: the
documents of namespace `ns` whose `"name"` field is present and equals
`coll`, in stored order. -/
def queryByName (store : MongoStore) (ns : String) (coll : String) :
    List BSONDoc :=
  (store.docs ns).filter (fun d => d.fields.lookup "name" == some coll)

/-- C++ `messageType` (mongo_ros.cpp:194-201): query the namespace
`db + ".ros_message_collections"` for a document whose `"name"` field
equals `coll` and return its `"type"` field.  When the cursor is empty,
`cursor->next()` raises a low-level driver fault ("no element"), modelled
as `none`; the function itself has no handling for that case. -/
def messageType (store : MongoStore) (db : String) (coll : String) :
    Option String :=
  let ns := db ++ ".ros_message_collections"
  match queryByName store ns coll with
  | [] => none
  | obj :: _ => some (obj.getStringField "type")

/-- Transcription of claim C1 as stated: over every outcome of the retry
loop, `makeDbConnection` raises `ConnectionTimeoutError` if and only if the
retry deadline elapses without a non-failed connection having been
obtained, and in every other case it returns the handle.  At loop exit,
having obtained a non-failed connection is `conn = some false` (the loop
breaks exactly when a fresh attempt ends non-failed), and the deadline
having elapsed is the post-loop clock reading beyond `start + timeout`. -/
def claimC1Stmt (env : Env) (nh : NodeHandle) (host : String) (port : Int)
    (timeout : Int) (name : String) (authenticate : Bool)
    (user : String) (pwd : String) (start : Int) (fuel : Nat) : Prop :=
  ∀ t conn log,
    connectLoop env (getAuthenticate nh authenticate) (start + timeout)
      fuel start none [] = some (t, conn, log) →
    ((makeDbConnection env nh host port timeout name authenticate user pwd
        start fuel = some (.timeoutError, log)
      ↔ (t > start + timeout ∧ conn ≠ some false))
     ∧ (makeDbConnection env nh host port timeout name authenticate user pwd
          start fuel = some (.timeoutError, log)
        ∨ ∃ f, makeDbConnection env nh host port timeout name authenticate
            user pwd start fuel = some (.handle f, log)))

end MongoRos

namespace MongoRos

/-- Environment in which every connection attempt succeeds after 3 time
units, authentication succeeds, and the connection is never failed. -/
def envSlow : Env := { outcome := fun _ => .conn 3 true false, ok := fun _ => true }

/-- Environment in which every connection attempt succeeds instantly,
authentication succeeds, and the connection is never failed. -/
def envQuick : Env := { outcome := fun _ => .conn 0 true false, ok := fun _ => true }

/-- Environment of an unreachable server: every connection attempt raises
`ConnectException` immediately. -/
def envUnreach : Env := { outcome := fun _ => .throwEx 0, ok := fun _ => true }

/-- Environment in which every connection attempt succeeds instantly with a
non-failed connection, but authentication fails. -/
def envAuthFail : Env := { outcome := fun _ => .conn 0 false false, ok := fun _ => true }

/-- Environment in which every connection attempt succeeds with a
non-failed connection but takes 61 time units. -/
def envVerySlow : Env := { outcome := fun _ => .conn 61 true false, ok := fun _ => true }

/-- Environment of a process shut down at time 1: every connection attempt
takes 1 time unit and yields a connection object in the failed state, and
`ros::ok()` becomes false from time 1 on. -/
def envShutdown : Env :=
  { outcome := fun _ => .conn 1 true true, ok := fun t => decide (t < 1) }

/-- C2: every `ConnectionHandle` that `makeDbConnection` returns (rather
than raising `DbConnectException`) satisfies `isFailed() = false`: the
function never returns a handle in a failed state. -/
theorem c2_returned_handle_not_failed (env : Env) (nh : NodeHandle)
    (host : String) (port : Int) (timeout : Int) (name : String)
    (authenticate : Bool) (user : String) (pwd : String) (start : Int)
    (fuel : Nat) (f : Bool) (log : List LogEvent)
    (h : makeDbConnection env nh host port timeout name authenticate user pwd
      start fuel = some (.handle f, log)) :
    f = false := by
  simp only [makeDbConnection] at h
  cases hl : connectLoop env (getAuthenticate nh authenticate)
      (start + timeout) fuel start none [] with
  | none => rw [hl] at h; exact absurd h (by simp)
  | some res =>
    obtain ⟨t, c, l⟩ := res
    rw [hl] at h
    match c with
    | none => simp at h
    | some failed =>
      by_cases hf : (failed || decide (t > start + timeout)) = true
      · simp only [hf, if_true] at h
        exact absurd h (by simp)
      · simp only [hf, if_false, Bool.not_eq_true] at h
        have hef : failed = f := by
          have := Option.some.inj h
          exact ConnectResult.handle.inj (Prod.mk.inj this).1
        have : failed = false := by
          cases failed with
          | false => rfl
          | true => simp at hf
        rw [← hef, this]

/-- C2 witness: in `envQuick` with a 5-unit timeout the function returns a
handle, and the theorem yields that its failed flag is `false`. -/
theorem c2_witness :
    makeDbConnection envQuick emptyNh "" 0 5 "" false "" "" 0 1
        = some (.handle false, [.connected])
      ∧ false = false :=
  ⟨by decide,
   c2_returned_handle_not_failed envQuick emptyNh "" 0 5 "" false "" "" 0 1
     false [.connected] (by decide)⟩

/-- C3: with every explicit argument at its unset sentinel and no configured
parameter, the resolvers return the hard-coded defaults.  Five of the six
match the claim (host `"localhost"`, port `27017`, name `""`, user `""`,
password `""`), but `getAuthenticate` returns `true`, not the claimed
`false`: the C++ passes the string literal `""` as the `bool` hard default,
which converts to `true` (non-null pointer).  This contradicts the unset
sentinel `false` of the explicit argument and the code's own stated intent
of matching the Python wrapper's defaults, so the code is in the wrong. -/
theorem c3_hard_defaults_eval :
    getHost emptyNh "" = "localhost"
      ∧ getPort emptyNh 0 = 27017
      ∧ getName emptyNh "" = ""
      ∧ getUser emptyNh "" = ""
      ∧ getPwd emptyNh "" = ""
      ∧ getAuthenticate emptyNh false = true := by
  refine ⟨by decide, by decide, by decide, by decide, by decide, by decide⟩

/-- C4: an explicit argument that differs from its type's unset sentinel is
returned as is, for every parameter store — the configured values and the
hard defaults are never consulted. -/
theorem c4_explicit_overrides (nh : NodeHandle) (host : String) (port : Int)
    (name : String) (user : String) (pwd : String) :
    (host ≠ "" → getHost nh host = host)
      ∧ (port ≠ 0 → getPort nh port = port)
      ∧ (name ≠ "" → getName nh name = name)
      ∧ (user ≠ "" → getUser nh user = user)
      ∧ (pwd ≠ "" → getPwd nh pwd = pwd)
      ∧ getAuthenticate nh true = true := by
  refine ⟨fun h => ?_, fun h => ?_, fun h => ?_, fun h => ?_, fun h => ?_, ?_⟩
  · simp [getHost, h]
  · simp [getPort, h]
  · simp [getName, h]
  · simp [getUser, h]
  · simp [getPwd, h]
  · simp [getAuthenticate]

/-- C4 witness: concrete non-sentinel arguments against the empty parameter
store, resolved through the theorem. -/
theorem c4_witness :
    getHost emptyNh "remote" = "remote"
      ∧ getPort emptyNh 5 = 5
      ∧ getName emptyNh "db" = "db"
      ∧ getUser emptyNh "u" = "u"
      ∧ getPwd emptyNh "p" = "p"
      ∧ getAuthenticate emptyNh true = true := by
  obtain ⟨h1, h2, h3, h4, h5, h6⟩ := c4_explicit_overrides emptyNh "remote" 5 "db" "u" "p"
  exact ⟨h1 (by decide), h2 (by decide), h3 (by decide), h4 (by decide),
    h5 (by decide), h6⟩

/-- C6: when the loop body never runs — the timeout is non-positive, so the
deadline is already reached at entry, or `ros::ok()` is already false — the
connection pointer is still null at the post-loop `conn->isFailed()` check,
which is a null-pointer dereference (undefined behavior), not a raised
`DbConnectException`. -/
theorem c6_null_pointer_dereference (env : Env) (nh : NodeHandle)
    (host : String) (port : Int) (timeout : Int) (name : String)
    (authenticate : Bool) (user : String) (pwd : String) (start : Int)
    (fuel : Nat)
    (h : timeout ≤ 0 ∨ env.ok start = false) :
    makeDbConnection env nh host port timeout name authenticate user pwd
      start (fuel + 1) = some (.nullPointerUB, []) := by
  have hguard : (env.ok start && decide (start < start + timeout)) = false := by
    rcases h with h | h
    · have : ¬ start < start + timeout := by omega
      simp [this]
    · simp [h]
  simp only [makeDbConnection, connectLoop, hguard, if_false, Bool.false_eq_true]

/-- C6 witness: a zero timeout in an otherwise healthy environment ends in
the null-pointer dereference. -/
theorem c6_witness :
    (0 : Int) ≤ 0
      ∧ makeDbConnection envQuick emptyNh "" 0 0 "" false "" "" 0 1
          = some (.nullPointerUB, []) :=
  ⟨by decide,
   c6_null_pointer_dereference envQuick emptyNh "" 0 0 "" false "" "" 0 0
     (Or.inl (by decide))⟩

/-- C1 counterexample: in `envShutdown` with a 5-unit timeout, the first
attempt leaves a failed connection at time 1 and `ros::ok()` then turns
false, so the loop exits at time 1 — well before the deadline 5 — and the
post-loop check throws `DbConnectException`.  The error is thus raised in a
run in which the retry deadline never elapses, refuting the claimed "if and
only if".  (The claim fails under the other reading of its right-hand side
too: `envSlow` with a 2-unit timeout breaks with a non-failed connection at
time 3 and still throws.) -/
theorem c1_counterexample :
    ¬ claimC1Stmt envShutdown emptyNh "" 0 5 "" false "" "" 0 2 := by
  intro h
  have hrun := h 1 (some true) [] (by decide)
  have hto : makeDbConnection envShutdown emptyNh "" 0 5 "" false "" "" 0 2
      = some (.timeoutError, []) := by decide
  have h1 := (hrun.1.mp hto).1
  omega

/-- C1 amended: `makeDbConnection` throws `DbConnectException` if and only
if, at the post-loop check, the connection object is failed or the current
time is strictly past the deadline; in every other (fuel-sufficient,
non-null) case it returns the non-failed handle. -/
theorem c1_amended (env : Env) (nh : NodeHandle) (host : String) (port : Int)
    (timeout : Int) (name : String) (authenticate : Bool)
    (user : String) (pwd : String) (start : Int) (fuel : Nat)
    (t : Int) (f : Bool) (log : List LogEvent)
    (h : connectLoop env (getAuthenticate nh authenticate) (start + timeout)
      fuel start none [] = some (t, some f, log)) :
    (makeDbConnection env nh host port timeout name authenticate user pwd
        start fuel = some (.timeoutError, log)
      ↔ (f = true ∨ t > start + timeout))
    ∧ (makeDbConnection env nh host port timeout name authenticate user pwd
        start fuel = some (.handle false, log)
      ↔ (f = false ∧ t ≤ start + timeout)) := by
  have hm : makeDbConnection env nh host port timeout name authenticate user
      pwd start fuel
      = if f || decide (t > start + timeout) then some (.timeoutError, log)
        else some (.handle f, log) := by
    simp only [makeDbConnection]
    rw [h]
  cases f with
  | true => simp [hm]
  | false =>
    by_cases ht : t > start + timeout
    · simp [hm, ht]
    · simp [hm, ht]
      omega

/-- C1 amended witness: the `envSlow` run of the counterexample, seen
through the amended characterization — the throw is explained by the
deadline side of the disjunction. -/
theorem c1_amended_witness :
    connectLoop envSlow (getAuthenticate emptyNh false) (0 + 2) 1 0 none []
        = some (3, some false, [.connected])
      ∧ (makeDbConnection envSlow emptyNh "" 0 2 "" false "" "" 0 1
            = some (.timeoutError, [.connected])
          ↔ (false = true ∨ (3 : Int) > 0 + 2)) :=
  ⟨by decide,
   (c1_amended envSlow emptyNh "" 0 2 "" false "" "" 0 1 3 false [.connected]
     (by decide)).1⟩

/-- C5: when authentication is resolved on and an attempt connects with a
non-failed connection object, the loop breaks at once and the handle is
returned, whatever `auth` returned: a failed `auth` call only adds the
`authFailed` log entry and never raises, so the returned value is the same
for an authenticated and an unauthenticated-but-connected handle. -/
theorem c5_auth_failure_logged_only (env : Env) (nh : NodeHandle)
    (host : String) (port : Int) (timeout : Int) (name : String)
    (authenticate : Bool) (user : String) (pwd : String) (start : Int)
    (fuel : Nat) (d : Nat) (a : Bool)
    (hauth : getAuthenticate nh authenticate = true)
    (hok : env.ok start = true)
    (hlt : start < start + timeout)
    (hout : env.outcome start = .conn d a false)
    (hend : start + (d : Int) ≤ start + timeout) :
    makeDbConnection env nh host port timeout name authenticate user pwd
      start (fuel + 1)
      = some (.handle false, (if a then [] else [.authFailed]) ++ [.connected]) := by
  have hguard : (env.ok start && decide (start < start + timeout)) = true := by
    simp [hok, hlt]
  have hgt : ¬ (start + (d : Int) > start + timeout) := by omega
  simp only [makeDbConnection, connectLoop, hauth, hguard, hout, if_true]
  cases a <;> simp [hgt]

/-- C5 witness: instant connection with failing authentication — the handle
comes back non-failed with the authentication failure only in the log. -/
theorem c5_witness :
    getAuthenticate emptyNh false = true
      ∧ makeDbConnection envAuthFail emptyNh "" 0 5 "" false "" "" 0 1
          = some (.handle false, [.authFailed, .connected]) :=
  ⟨by decide,
   c5_auth_failure_logged_only envAuthFail emptyNh "" 0 5 "" false "" "" 0 0
     0 false (by decide) (by decide) (by decide) (by decide) (by decide)⟩

/-- C9: a connection attempt that raises `ConnectException` is caught
locally: the iteration's result is exactly the rest of the loop, entered
after the 1-unit sleep (time advances by the attempt's duration plus 1)
with a fresh connection object — the exception never escapes. -/
theorem c9_connect_exception_caught (env : Env) (doAuth : Bool) (endT : Int)
    (fuel : Nat) (t : Int) (conn : Option Bool) (log : List LogEvent) (d : Nat)
    (hok : env.ok t = true)
    (hlt : t < endT)
    (hout : env.outcome t = .throwEx d) :
    connectLoop env doAuth endT (fuel + 1) t conn log
      = connectLoop env doAuth endT fuel (t + d + 1) (some true) log := by
  have hguard : (env.ok t && decide (t < endT)) = true := by simp [hok, hlt]
  simp only [connectLoop, hguard, hout, if_true]

/-- C9 witness: in the unreachable environment the first iteration reduces
to the remaining loop entered one time unit later. -/
theorem c9_witness :
    connectLoop envUnreach true 2 1 0 none []
        = connectLoop envUnreach true 2 0 (0 + 0 + 1) (some true) []
      ∧ envUnreach.outcome 0 = .throwEx 0 :=
  ⟨c9_connect_exception_caught envUnreach true 2 0 0 none [] 0
     (by decide) (by decide) (by decide),
   by decide⟩

/-- C10: against an unreachable server with a 2-unit timeout, the loop
terminates regardless of how much extra fuel is available: each attempt
throws immediately and the sleep advances the clock by 1, so after two
iterations the clock reads 2, the guard fails, and the post-loop check
throws `DbConnectException` — at time `start + 2`, within the claimed 2–3
time units, never looping indefinitely. -/
theorem c10_unreachable_times_out (fuel : Nat) :
    connectLoop envUnreach true 2 (fuel + 3) 0 none []
        = some (2, some true, [])
      ∧ makeDbConnection envUnreach emptyNh "host" 0 2 "" false "" "" 0
          (fuel + 3) = some (.timeoutError, []) := by
  have h1 : connectLoop envUnreach true 2 (fuel + 3) 0 none []
      = some (2, some true, []) := by
    show connectLoop envUnreach true 2 (fuel + 2 + 1) 0 none [] = _
    rw [connectLoop]
    simp only [envUnreach, decide_eq_true_eq]
    norm_num
    show connectLoop envUnreach true 2 (fuel + 1 + 1) 1 (some true) [] = _
    rw [connectLoop]
    simp only [envUnreach, decide_eq_true_eq]
    norm_num
    show connectLoop envUnreach true 2 (fuel + 1) 2 (some true) [] = _
    cases fuel with
    | zero => decide
    | succ g =>
      rw [connectLoop]
      simp [envUnreach]
  refine ⟨h1, ?_⟩
  have hauth : getAuthenticate emptyNh false = true := by decide
  simp only [makeDbConnection, hauth]
  norm_num [h1]

/-- C7: `messageType` returns exactly the `"type"` field of the first
stored document of the namespace `db ++ ".ros_message_collections"` whose
`"name"` field equals `coll`; when no stored document matches, it returns
no value (the empty-cursor dereference propagates as a driver fault). -/
theorem c7_message_type_lookup (store : MongoStore) (db coll : String) :
    messageType store db coll
      = ((store.docs (db ++ ".ros_message_collections")).filter
          (fun d => d.fields.lookup "name" == some coll)).head?.map
          (fun d => (d.fields.lookup "type").getD "") := by
  simp only [messageType, queryByName, BSONDoc.getStringField]
  cases (store.docs (db ++ ".ros_message_collections")).filter
      (fun d => d.fields.lookup "name" == some coll) with
  | nil => rfl
  | cons d rest => rfl

/-- C8: the 1-argument `dropDatabase` is the 4-argument form at host `""`,
port `0`, timeout `60`; when the underlying `makeDbConnection` throws
`DbConnectException` it propagates unchanged, and when it returns a handle
exactly one drop-database command is issued, for the given name. -/
theorem c8_drop_database_forms (env : Env) (nh : NodeHandle) (db : String)
    (start : Int) (fuel : Nat) :
    (dropDatabase1 env nh db start fuel = dropDatabase4 env nh db "" 0 60 start fuel)
      ∧ (∀ log, makeDbConnection env nh "" 0 60 "" false "" "" start fuel
            = some (.timeoutError, log) →
          dropDatabase1 env nh db start fuel = some .timeoutError)
      ∧ (∀ f log, makeDbConnection env nh "" 0 60 "" false "" "" start fuel
            = some (.handle f, log) →
          dropDatabase1 env nh db start fuel = some (.ok [db])) := by
  refine ⟨rfl, fun log h => ?_, fun f log h => ?_⟩
  · simp only [dropDatabase1, dropDatabase4]
    rw [h]
  · simp only [dropDatabase1, dropDatabase4]
    rw [h]

/-- C8 witness: a fast reachable server gives exactly one drop command for
the requested name; a server whose connect exceeds the 60-unit deadline
makes the 1-argument form propagate the timeout error. -/
theorem c8_witness :
    makeDbConnection envQuick emptyNh "" 0 60 "" false "" "" 0 1
        = some (.handle false, [.connected])
      ∧ dropDatabase1 envQuick emptyNh "mydb" 0 1 = some (.ok ["mydb"])
      ∧ makeDbConnection envVerySlow emptyNh "" 0 60 "" false "" "" 0 1
          = some (.timeoutError, [.connected])
      ∧ dropDatabase1 envVerySlow emptyNh "mydb" 0 1 = some .timeoutError :=
  ⟨by decide,
   (c8_drop_database_forms envQuick emptyNh "mydb" 0 1).2.2 false [.connected]
     (by decide),
   by decide,
   (c8_drop_database_forms envVerySlow emptyNh "mydb" 0 1).2.1 [.connected]
     (by decide)⟩

end MongoRos
